import Mathlib

/-!
Verification of the weather-app backend core (controller + model layer)
against its natural-language specification.

The development shallowly embeds `backend/models/Weather.js` and
`backend/controllers/weatherController.js`:

* JavaScript objects become Lean structures; optional / possibly-missing
  JSON fields become `Option` types.
* MongoDB documents become association lists of `String × DocValue`.
* Each request handler becomes a pure function from its inputs (request
  parameters, the upstream-API oracle, the database state, the current
  time, the identifier the store would assign on insert) to a result
  record holding the HTTP response, the new database state, and the list
  of upstream HTTP requests the handler issued.
* JavaScript numbers are modelled as `Rat` (the handlers perform no
  arithmetic whose result depends on binary floating point), rounded
  temperatures as `Int`, and `Date` values as milliseconds (`Nat`).
* A thrown-and-caught exception becomes an `Except` error value.
-/

namespace WeatherApp

/-- A value stored in a MongoDB document field.  `vNull` and `vUndef`
model JavaScript `null` and `undefined` so that the empty-value strip in
`toDocument` can be stated exactly as the source writes it. -/
inductive DocValue where
  | vStr : String → DocValue
  | vInt : Int → DocValue
  | vRat : Rat → DocValue
  | vDate : Nat → DocValue
  | vNull : DocValue
  | vUndef : DocValue
deriving DecidableEq, Repr

/-- A MongoDB document: an association list of field names to values. -/
abbrev Doc := List (String × DocValue)

/-- First value bound to key `k` in document `d` (JavaScript property
lookup / MongoDB field access). -/
def docField : Doc → String → Option DocValue
  | [], _ => none
  | kv :: rest, k => if kv.1 = k then some kv.2 else docField rest k

/-- The test `doc[key] === undefined || doc[key] === null || doc[key] === ''`
from `WeatherModel.toDocument`. -/
def isEmptyVal : DocValue → Bool
  | .vStr s => decide (s = "")
  | .vNull => true
  | .vUndef => true
  | _ => false

/-- JavaScript `v || d` for an optional string `v` with string default:
both a missing value and the (falsy) empty string fall back to `d`. -/
def jsOrStr (v : Option String) (d : String) : String :=
  match v with
  | some s => if s = "" then d else s
  | none => d

/-- JavaScript `s || d` on strings: the empty string is falsy. -/
def jsFallback (s d : String) : String := if s = "" then d else s

/-- JavaScript `v || d` for an optional rational with default `d`
(a missing value and the falsy number 0 fall back to `d`). -/
def jsOrRat (v : Option Rat) (d : Rat) : Rat :=
  match v with
  | some x => if x = 0 then d else x
  | none => d

/-- JavaScript `v || d` for an optional integer with default `d`. -/
def jsOrInt (v : Option Int) (d : Int) : Int :=
  match v with
  | some x => if x = 0 then d else x
  | none => d

/-- JavaScript `Math.round`: round half toward positive infinity. -/
def jsRound (x : Rat) : Int := Int.floor (x + 1 / 2)

/-- Whitespace removed by JavaScript `String.prototype.trim`. -/
def isTrimSpace (c : Char) : Bool := c = ' ' || c = '\t' || c = '\n' || c = '\r'

/-- JavaScript `s.trim()`: remove leading and trailing whitespace. -/
def trimStr (s : String) : String :=
  String.mk (((s.data.dropWhile isTrimSpace).reverse.dropWhile isTrimSpace).reverse)

/-!  ## The weather model (`backend/models/Weather.js`)  -/

/-- The normalized weather record built by the `WeatherModel`
constructor.  After construction every field is defined (the constructor
defaults each missing field), so the fields are total here. -/
structure WeatherModel where
  city : String
  country : String
  temperature : Int
  feelsLike : Int
  description : String
  icon : String
  humidity : Int
  windSpeed : Rat
  pressure : Int
  timestamp : Nat
deriving DecidableEq, Repr

/-- The `data` argument of the `WeatherModel` constructor: any subset of
the fields may be absent. -/
structure WeatherData where
  city : Option String
  country : Option String
  temperature : Option Int
  feelsLike : Option Int
  description : Option String
  icon : Option String
  humidity : Option Int
  windSpeed : Option Rat
  pressure : Option Int
  timestamp : Option Nat
deriving DecidableEq, Repr

/-- The `WeatherModel` constructor: each field defaults via JavaScript
`||` (strings to `''`, numbers to `0`) and the timestamp to `new Date()`,
passed in as `now`. -/
def WeatherModel.ofData (d : WeatherData) (now : Nat) : WeatherModel :=
  { city := jsOrStr d.city ""
    country := jsOrStr d.country ""
    temperature := jsOrInt d.temperature 0
    feelsLike := jsOrInt d.feelsLike 0
    description := jsOrStr d.description ""
    icon := jsOrStr d.icon ""
    humidity := jsOrInt d.humidity 0
    windSpeed := jsOrRat d.windSpeed 0
    pressure := jsOrInt d.pressure 0
    timestamp := d.timestamp.getD now }

/-- `isValid()`: `this.city && this.temperature !== undefined &&
this.description && this.icon`.  After construction `temperature` is
always defined (it defaults to `0`), so that conjunct is identically
true; string truthiness means non-emptiness. -/
def WeatherModel.isValid (m : WeatherModel) : Bool :=
  decide (m.city ≠ "") && decide (m.description ≠ "") && decide (m.icon ≠ "")

/-- `Object.keys(doc).forEach(... delete ...)` in `toDocument`: drop
every key whose value is `undefined`, `null` or `''`. -/
def stripEmpty (d : Doc) : Doc := d.filter (fun kv => !isEmptyVal kv.2)

/-- `toDocument()`: build the storage document (trimming the city) and
strip empty values. -/
def WeatherModel.toDocument (m : WeatherModel) : Doc :=
  stripEmpty
    [("city", .vStr (trimStr m.city)),
     ("country", .vStr m.country),
     ("temperature", .vInt m.temperature),
     ("description", .vStr m.description),
     ("icon", .vStr m.icon),
     ("humidity", .vInt m.humidity),
     ("windSpeed", .vRat m.windSpeed),
     ("pressure", .vInt m.pressure),
     ("timestamp", .vDate m.timestamp)]

/-!  ## The upstream OpenWeather payload  -/

/-- One entry of the payload's `weather` array. -/
structure WeatherCond where
  description : Option String
  icon : Option String
deriving DecidableEq, Repr

/-- The payload's `main` object. -/
structure MainObj where
  temp : Option Rat
  feels_like : Option Rat
  humidity : Option Int
  pressure : Option Int
deriving DecidableEq, Repr

/-- The payload's `wind` object. -/
structure WindObj where
  speed : Option Rat
deriving DecidableEq, Repr

/-- The payload's `sys` object. -/
structure SysObj where
  country : Option String
deriving DecidableEq, Repr

/-- A current-weather response body: a JSON object any of whose
optional members may be missing. -/
structure ApiPayload where
  name : Option String
  sys : Option SysObj
  main : Option MainObj
  weather : Option (List WeatherCond)
  wind : Option WindObj
deriving DecidableEq, Repr

/-- `apiData.main?.temp` (optional chaining). -/
def ApiPayload.mainTemp (p : ApiPayload) : Option Rat := p.main.bind MainObj.temp

/-- `apiData.main?.feels_like`. -/
def ApiPayload.mainFeelsLike (p : ApiPayload) : Option Rat :=
  p.main.bind MainObj.feels_like

/-- `apiData.main?.humidity`. -/
def ApiPayload.mainHumidity (p : ApiPayload) : Option Int :=
  p.main.bind MainObj.humidity

/-- `apiData.main?.pressure`. -/
def ApiPayload.mainPressure (p : ApiPayload) : Option Int :=
  p.main.bind MainObj.pressure

/-- `apiData.wind?.speed`. -/
def ApiPayload.windSpeed (p : ApiPayload) : Option Rat := p.wind.bind WindObj.speed

/-- `apiData.weather?.[0]`. -/
def ApiPayload.firstCond (p : ApiPayload) : Option WeatherCond :=
  p.weather.bind List.head?

/-- `apiData.weather?.[0]?.description`. -/
def ApiPayload.firstDescription (p : ApiPayload) : Option String :=
  p.firstCond.bind WeatherCond.description

/-- `apiData.weather?.[0]?.icon`. -/
def ApiPayload.firstIcon (p : ApiPayload) : Option String :=
  p.firstCond.bind WeatherCond.icon

/-- `WeatherModel.fromApiResponse(apiData)`: extract and default each
field, round the temperatures, and run the constructor (`now` is the
construction time used for the defaulted timestamp). -/
def WeatherModel.fromApiResponse (p : ApiPayload) (now : Nat) : WeatherModel :=
  WeatherModel.ofData
    { city := p.name
      country := some (jsOrStr (p.sys.bind SysObj.country) "")
      temperature := some (jsRound (jsOrRat p.mainTemp 0))
      feelsLike := some (jsRound (jsOrRat p.mainFeelsLike 0))
      description := some (jsOrStr p.firstDescription "")
      icon := some (jsOrStr p.firstIcon "")
      humidity := some (jsOrInt p.mainHumidity 0)
      windSpeed := some (jsOrRat p.windSpeed 0)
      pressure := some (jsOrInt p.mainPressure 0)
      timestamp := none }
    now

/-!  ## JavaScript numbers and `parseFloat`  -/

/-- A non-`NaN` JavaScript number: finite, or an infinity with a sign
(`true` = positive).  `NaN` itself is represented by `none` at the
`Option JsNum` level, matching the `isNaN` checks in the controller. -/
inductive JsNum where
  | fin : Rat → JsNum
  | inf : Bool → JsNum
deriving DecidableEq, Repr

/-- Whitespace skipped by `parseFloat`. -/
def isJsSpace (c : Char) : Bool := c = ' ' || c = '\t' || c = '\n' || c = '\r'

/-- Decimal digit test. -/
def isDigitChar (c : Char) : Bool := '0' ≤ c && c ≤ '9'

/-- Value of a list of decimal digit characters. -/
def digitsVal (ds : List Char) : Nat :=
  ds.foldl (fun a c => a * 10 + (c.toNat - 48)) 0

/-- JavaScript `parseFloat` on an optional string (an absent query
parameter is `undefined`, which parses to `NaN` = `none`): skip leading
whitespace, read an optional sign, then either `Infinity` or a decimal
literal with optional fraction and exponent, ignoring any trailing
characters; `none` when no numeric prefix exists. -/
def jsParseFloat (s? : Option String) : Option JsNum :=
  match s? with
  | none => none
  | some s =>
    let cs := s.data.dropWhile isJsSpace
    let signedTail : Bool × List Char :=
      match cs with
      | '-' :: r => (false, r)
      | '+' :: r => (true, r)
      | _ => (true, cs)
    let sgn := signedTail.1
    let cs1 := signedTail.2
    if cs1.take 8 = "Infinity".data then some (JsNum.inf sgn)
    else
      let ipSplit := cs1.span isDigitChar
      let ip := ipSplit.1
      let afterInt := ipSplit.2
      let fpSplit : List Char × List Char :=
        match afterInt with
        | '.' :: r => r.span isDigitChar
        | _ => ([], afterInt)
      let fp := fpSplit.1
      let afterFrac := if afterInt.head? = some '.' then fpSplit.2 else afterInt
      if ip.isEmpty && fp.isEmpty then none
      else
        let mant : Rat := (digitsVal ip : Rat) + (digitsVal fp : Rat) / (10 : Rat) ^ fp.length
        let expVal : Int :=
          match afterFrac with
          | c :: r =>
            if c = 'e' || c = 'E' then
              let esignedTail : Int × List Char :=
                match r with
                | '-' :: r2 => (-1, r2)
                | '+' :: r2 => (1, r2)
                | _ => (1, r)
              let eds := (esignedTail.2.span isDigitChar).1
              if eds.isEmpty then 0 else esignedTail.1 * digitsVal eds
            else 0
          | [] => 0
        some (JsNum.fin ((if sgn then 1 else -1) * mant * (10 : Rat) ^ expVal))

/-!  ## Errors and the error translator  -/

/-- `error.response` of an axios error: the upstream HTTP status and the
optional `data.message` of the upstream body. -/
structure UpstreamFailure where
  status : Nat
  dataMessage : Option String
deriving DecidableEq, Repr

/-- A caught exception: its `message`, and `response` when the failure
came from an upstream HTTP status (absent for network/parse failures and
internal exceptions). -/
structure JsError where
  message : String
  response : Option UpstreamFailure
deriving DecidableEq, Repr

/-- A JSON response sent by a handler: HTTP status, the `success` flag,
and the optional `error` and `message` body fields. -/
structure Response where
  status : Nat
  success : Bool
  error : Option String
  message : Option String
deriving DecidableEq, Repr

/-- The error envelope `res.status(st).json({ success: false, error: msg })`. -/
def errResponse (st : Nat) (msg : String) : Response :=
  { status := st, success := false, error := some msg, message := none }

/-- `handleError(res, error)` from `weatherController.js`: map an
upstream 401/404/429 to fixed messages, pass any other upstream status
through with the upstream message (falling back to the error's own
message, then `'API Error'`), and answer 500 with a `'Server Error: '`
prefix when there is no upstream response. -/
def handleError (e : JsError) : Response :=
  match e.response with
  | some r =>
    if r.status = 401 then errResponse 401 "Invalid API key"
    else if r.status = 404 then errResponse 404 "Location/Resource not found"
    else if r.status = 429 then errResponse 429 "Too many requests. Try again later"
    else errResponse r.status (jsFallback (jsOrStr r.dataMessage e.message) "API Error")
  | none => errResponse 500 ("Server Error: " ++ jsFallback e.message "Unknown error")

/-!  ## Storage model  -/

/-- A stored document together with the `_id` the store assigned. -/
structure StoredDoc where
  id : String
  fields : Doc
deriving DecidableEq, Repr

/-- The database state: the `searchHistory` and `favorites`
collections, in insertion order. -/
structure DB where
  searchHistory : List StoredDoc
  favorites : List StoredDoc
deriving DecidableEq, Repr

/-- The empty database. -/
def DB.empty : DB := { searchHistory := [], favorites := [] }

/-- Does stored document `d` match the MongoDB query `{ city: c }`?
Exact, case-sensitive equality on the `city` field; a document whose
`city` key was stripped matches no (non-null) queried name. -/
def matchesCity (d : StoredDoc) (c : String) : Bool :=
  docField d.fields "city" == some (DocValue.vStr c)

/-- `findOne({ city })` on a collection: the first match, if any. -/
def findOneByCity (l : List StoredDoc) (c : String) : Option StoredDoc :=
  l.find? (fun d => matchesCity d c)

/-- `findOne({ _id })` on a collection. -/
def findOneById (l : List StoredDoc) (i : String) : Option StoredDoc :=
  l.find? (fun d => d.id == i)

/-- Number of stored documents matching the query `{ city: c }`. -/
def countCity (l : List StoredDoc) (c : String) : Nat :=
  (l.filter (fun d => matchesCity d c)).length

/-- `deleteOne({ _id })`: remove the first document with that id. -/
def deleteOneById : List StoredDoc → String → List StoredDoc
  | [], _ => []
  | d :: rest, i => if d.id == i then rest else d :: deleteOneById rest i

/-!  ## Upstream requests and handler results  -/

/-- The parameters of an axios request issued by a handler to the
OpenWeather API (`q` for by-name lookups, `lat`/`lon` for
by-coordinates lookups, always a `units` value). -/
structure FetchReq where
  q : Option String
  lat : Option JsNum
  lon : Option JsNum
  units : String
deriving DecidableEq, Repr

/-- The upstream current-weather API as an oracle: what the `await
axios.get` would produce for a given request — a payload, or a thrown
error. -/
abbrev Api := FetchReq → Except JsError ApiPayload

/-- The observable outcome of a lookup/add handler: the response, the
database state afterwards, and the upstream requests actually issued. -/
structure HandlerResult where
  resp : Response
  db : DB
  fetches : List FetchReq
deriving DecidableEq, Repr

/-- The 200 success envelope (`res.json({ success: true, ... })`). -/
def okResponse (msg : Option String) : Response :=
  { status := 200, success := true, error := none, message := msg }

/-!  ## Request handlers (`weatherController.js`)  -/

/-- The axios params of a by-name current-weather request. -/
def currentWeatherReq (city : String) (units : String) : FetchReq :=
  { q := some city, lat := none, lon := none, units := units }

/-- The axios params of a by-coordinates current-weather request. -/
def coordWeatherReq (la lo : JsNum) (units : String) : FetchReq :=
  { q := none, lat := some la, lon := some lo, units := units }

/-- `getWeatherByCity`: fetch current weather for the named city
(defaulting `units` to `'metric'`), normalize it through
`fromApiResponse`, insert `toDocument()` into `searchHistory`, and
answer success; any exception goes to `handleError`. -/
def getWeatherByCity (city : String) (units? : Option String) (api : Api)
    (db : DB) (now : Nat) (newId : String) : HandlerResult :=
  let req := currentWeatherReq city (units?.getD "metric")
  match api req with
  | Except.ok payload =>
    let m := WeatherModel.fromApiResponse payload now
    { resp := okResponse none,
      db := { db with searchHistory := db.searchHistory ++ [{ id := newId, fields := m.toDocument }] },
      fetches := [req] }
  | Except.error e => { resp := handleError e, db := db, fetches := [req] }

/-- `getCurrentLocation`: `parseFloat` both coordinates and answer 400
`'Coords required'` if either is `NaN`, before any upstream call or
history insert; otherwise fetch by coordinates, normalize, insert into
`searchHistory`, and answer success. -/
def getCurrentLocation (lat lon units? : Option String) (api : Api)
    (db : DB) (now : Nat) (newId : String) : HandlerResult :=
  match jsParseFloat lat, jsParseFloat lon with
  | some la, some lo =>
    let req := coordWeatherReq la lo (units?.getD "metric")
    match api req with
    | Except.ok payload =>
      let m := WeatherModel.fromApiResponse payload now
      { resp := okResponse none,
        db := { db with searchHistory := db.searchHistory ++ [{ id := newId, fields := m.toDocument }] },
        fetches := [req] }
    | Except.error e => { resp := handleError e, db := db, fetches := [req] }
  | _, _ =>
    { resp := { status := 400, success := false, error := some "Coords required", message := none },
      db := db, fetches := [] }

/-- `addFavorite`: if `findOne({ city })` finds an existing favorite,
answer `{ success: false, message: 'Already in favorites' }` (HTTP 200)
without fetching or inserting; otherwise fetch fresh weather with
`units: 'metric'` hardcoded, normalize, and insert into `favorites`.
The client's `units` parameter is accepted but never read. -/
def addFavorite (city : String) (units? : Option String) (api : Api)
    (db : DB) (now : Nat) (newId : String) : HandlerResult :=
  match findOneByCity db.favorites city with
  | some _ =>
    { resp := { status := 200, success := false, error := none,
                message := some "Already in favorites" },
      db := db, fetches := [] }
  | none =>
    let req := currentWeatherReq city "metric"
    match api req with
    | Except.ok payload =>
      let m := WeatherModel.fromApiResponse payload now
      { resp := okResponse (some "Added to favorites"),
        db := { db with favorites := db.favorites ++ [{ id := newId, fields := m.toDocument }] },
        fetches := [req] }
    | Except.error e => { resp := handleError e, db := db, fetches := [req] }

/-!  ## MongoDB ObjectId (`bson` driver behavior)  -/

/-- Hexadecimal digit test (both cases, as in the driver's regex). -/
def isHexChar (c : Char) : Bool :=
  isDigitChar c || ('a' ≤ c && c ≤ 'f') || ('A' ≤ c && c ≤ 'F')

/-- `ObjectId.isValid(string)`: a 12-character string (taken as raw
bytes) or a 24-character hex string. -/
def isValidObjectId (s : String) : Bool :=
  s.length == 12 || (s.length == 24 && s.data.all isHexChar)

/-- Lowercase hex digit for a value below 16. -/
def hexDigitChar (n : Nat) : Char :=
  if n < 10 then Char.ofNat (48 + n) else Char.ofNat (87 + n)

/-- Two lowercase hex digits of a byte. -/
def byteHex (n : Nat) : List Char := [hexDigitChar (n / 16 % 16), hexDigitChar (n % 16)]

/-- Canonical form of `new ObjectId(s)` for a string accepted by
`isValid`: the id's 12 bytes written as 24 lowercase hex characters, so
that equality of canonical forms is equality of the underlying ids. -/
def objectIdCanon (s : String) : String :=
  if s.length == 12 then String.mk ((s.data.map (fun c => byteHex (c.toNat % 256))).flatten)
  else String.mk (s.data.map Char.toLower)

/-!  ## `removeFavorite`  -/

/-- Outcome of `removeFavorite`: the response, the database state
afterwards, and how many storage reads/deletes were performed. -/
structure RemoveResult where
  resp : Response
  db : DB
  reads : Nat
  deletes : Nat
deriving DecidableEq, Repr

/-- `removeFavorite`: reject an id failing `ObjectId.isValid` with 400
before touching storage; otherwise `findOne` by id, answering 404 when
absent (the diagnostic log in that branch performs one further `find`
read), and `deleteOne` it when present. -/
def removeFavorite (id : String) (db : DB) : RemoveResult :=
  if isValidObjectId id then
    let oid := objectIdCanon id
    match findOneById db.favorites oid with
    | none =>
      { resp := { status := 404, success := false,
                  error := some "Favorite not found", message := none },
        db := db, reads := 2, deletes := 0 }
    | some _ =>
      { resp := { status := 200, success := true, error := none,
                  message := some "Removed favorite" },
        db := { db with favorites := deleteOneById db.favorites oid },
        reads := 1, deletes := 1 }
  else
    { resp := { status := 400, success := false,
                error := some "Invalid favorite ID", message := none },
      db := db, reads := 0, deletes := 0 }

/-!  ## `getSearchHistory`  -/

/-- The sort key used by `.sort({ timestamp: -1 })`: the document's
`timestamp` field.  Every document the handlers insert carries one
(`toDocument` never strips a date); a hypothetical document without one
sorts lowest. -/
def storedTs (d : StoredDoc) : Nat :=
  match docField d.fields "timestamp" with
  | some (DocValue.vDate n) => n
  | _ => 0

/-- Insert into a list kept in descending `storedTs` order. -/
def insertDescBy (d : StoredDoc) : List StoredDoc → List StoredDoc
  | [] => [d]
  | e :: es => if storedTs e ≤ storedTs d then d :: e :: es else e :: insertDescBy d es

/-- Sort a collection by descending `storedTs`
(the effect of `.sort({ timestamp: -1 })`). -/
def sortByTsDesc : List StoredDoc → List StoredDoc
  | [] => []
  | d :: ds => insertDescBy d (sortByTsDesc ds)

/-- `getSearchHistory`'s selection:
`find({}).sort({ timestamp: -1 }).limit(10)` — the documents the
handler then maps through `SearchHistory#toFrontend`. -/
def getSearchHistory (db : DB) : List StoredDoc :=
  (sortByTsDesc db.searchHistory).take 10

/-!  ## `getForecast`  -/

/-- One entry of the upstream forecast `list` (modelled with the fields
the handler reads, all present in a well-formed entry). -/
structure ForecastItem where
  dt : Nat
  temp : Rat
  icon : String
  description : String
deriving DecidableEq, Repr

/-- The upstream 5-day/3-hour forecast response body. -/
structure ForecastData where
  cityName : String
  list : List ForecastItem
deriving DecidableEq, Repr

/-- The upstream forecast API as an oracle. -/
abbrev ForecastApi := FetchReq → Except JsError ForecastData

/-- The day-selection `list.slice(0, 40).filter((_, i) => i % 8 === 0)`
of `getForecast`. -/
def selectDaily {α : Type} (l : List α) : List α :=
  ((l.take 40).enum.filter (fun p => p.1 % 8 == 0)).map Prod.snd

/-- Outcome of `getForecast`: the response, the selected daily entries,
and the upstream requests issued.  `getForecast` performs no storage
side effect. -/
structure ForecastResult where
  resp : Response
  daily : List ForecastItem
  fetches : List FetchReq
deriving DecidableEq, Repr

/-- `getForecast`: fetch the 5-day/3-hour forecast and keep every 8th
entry; its `catch` block ignores the thrown error entirely and answers
500 `'Forecast failed'` for every failure (it does not call
`handleError`). -/
def getForecast (city : String) (units? : Option String) (api : ForecastApi) :
    ForecastResult :=
  let req := currentWeatherReq city (units?.getD "metric")
  match api req with
  | Except.ok d =>
    { resp := okResponse none, daily := selectDaily d.list, fetches := [req] }
  | Except.error _ =>
    { resp := { status := 500, success := false,
                error := some "Forecast failed", message := none },
      daily := [], fetches := [req] }

/-!  ## Concrete inputs used by counterexamples and witnesses  -/

/-- An upstream 200 body that is a JSON object with every optional
member absent (`{}`). -/
def emptyPayload : ApiPayload :=
  { name := none, sys := none, main := none, weather := none, wind := none }

/-- An upstream oracle answering every request with `emptyPayload`. -/
def emptyApi : Api := fun _ => Except.ok emptyPayload

/-- The record the model layer builds from `emptyPayload`. -/
def invalidModel : WeatherModel := WeatherModel.fromApiResponse emptyPayload 777

/-- A well-formed upstream payload whose canonical city name is
`"Pune"`. -/
def punePayload : ApiPayload :=
  { name := some "Pune", sys := some { country := some "IN" },
    main := some { temp := some 25, feels_like := some 26,
                   humidity := some 40, pressure := some 1000 },
    weather := some [{ description := some "clear sky", icon := some "01d" }],
    wind := some { speed := some 3 } }

/-- An upstream oracle answering every request with `punePayload`. -/
def puneApi : Api := fun _ => Except.ok punePayload

/-- An axios error carrying an upstream 404 response. -/
def err404 : JsError :=
  { message := "Request failed with status code 404",
    response := some { status := 404, dataMessage := some "city not found" } }

/-- The `error.response` of `err404`. -/
def resp404 : UpstreamFailure := { status := 404, dataMessage := some "city not found" }

/-- A current-weather oracle that fails with `err404`. -/
def apiErr404 : Api := fun _ => Except.error err404

/-- A forecast oracle that fails with `err404`. -/
def fapiErr404 : ForecastApi := fun _ => Except.error err404

/-- A stored favorite with id `aaaaaaaaaaaaaaaaaaaaaaaa`. -/
def favPune : StoredDoc :=
  { id := "aaaaaaaaaaaaaaaaaaaaaaaa",
    fields := [("city", DocValue.vStr "Pune"), ("temperature", DocValue.vInt 25),
               ("timestamp", DocValue.vDate 5)] }

/-- A database holding the single favorite `favPune`. -/
def dbOneFav : DB := { searchHistory := [], favorites := [favPune] }

/-- A fully explicit record whose numeric temperature and humidity are
zero. -/
def mumbaiModel : WeatherModel :=
  { city := "Mumbai", country := "IN", temperature := 0, feelsLike := 0,
    description := "haze", icon := "50d", humidity := 0, windSpeed := 2,
    pressure := 1013, timestamp := 3 }

/-- Two history documents persisted in the same millisecond. -/
def tieDocA : StoredDoc :=
  { id := "h1", fields := [("city", DocValue.vStr "A"), ("timestamp", DocValue.vDate 5)] }

/-- Second history document with the same timestamp as `tieDocA`. -/
def tieDocB : StoredDoc :=
  { id := "h2", fields := [("city", DocValue.vStr "B"), ("timestamp", DocValue.vDate 5)] }

/-- A history state containing two entries with equal timestamps. -/
def tieDB : DB := { searchHistory := [tieDocA, tieDocB], favorites := [] }

/-!  ## Helper lemmas  -/

/-- Rounding the defaulted value 0 yields 0. -/
lemma jsRound_zero : jsRound 0 = 0 := by
  norm_num [jsRound]

/-- `docField` on a cons. -/
lemma docField_cons (kv : String × DocValue) (rest : Doc) (k : String) :
    docField (kv :: rest) k = if kv.1 = k then some kv.2 else docField rest k := rfl

/-- Looking a key up after the strip skips a stripped or differently
named head entry. -/
lemma docField_stripEmpty_cons_ne (key k : String) (v : DocValue) (rest : Doc)
    (h : key ≠ k) :
    docField (stripEmpty ((key, v) :: rest)) k = docField (stripEmpty rest) k := by
  cases hse : isEmptyVal v <;>
    simp [stripEmpty, List.filter_cons, hse, docField_cons, h]

/-- Looking a key up after the strip finds a non-empty head entry. -/
lemma docField_stripEmpty_cons_eq (k : String) (v : DocValue) (rest : Doc)
    (hv : isEmptyVal v = false) :
    docField (stripEmpty ((k, v) :: rest)) k = some v := by
  simp [stripEmpty, List.filter_cons, hv, docField_cons]

/-- The `city` field of a storage document: present (as the trimmed
city) exactly when the trimmed city is non-empty. -/
lemma docField_city_toDocument (m : WeatherModel) (h : trimStr m.city ≠ "") :
    docField m.toDocument "city" = some (DocValue.vStr (trimStr m.city)) := by
  rw [WeatherModel.toDocument, docField_stripEmpty_cons_eq]
  simp [isEmptyVal, h]

/-- The `temperature` field of a storage document is always present,
carrying the numeric value even when it is zero. -/
lemma docField_temperature_toDocument (m : WeatherModel) :
    docField m.toDocument "temperature" = some (DocValue.vInt m.temperature) := by
  rw [WeatherModel.toDocument,
    docField_stripEmpty_cons_ne _ _ _ _ (by decide),
    docField_stripEmpty_cons_ne _ _ _ _ (by decide),
    docField_stripEmpty_cons_eq]
  rfl

/-- The `humidity` field of a storage document is always present. -/
lemma docField_humidity_toDocument (m : WeatherModel) :
    docField m.toDocument "humidity" = some (DocValue.vInt m.humidity) := by
  rw [WeatherModel.toDocument,
    docField_stripEmpty_cons_ne _ _ _ _ (by decide),
    docField_stripEmpty_cons_ne _ _ _ _ (by decide),
    docField_stripEmpty_cons_ne _ _ _ _ (by decide),
    docField_stripEmpty_cons_ne _ _ _ _ (by decide),
    docField_stripEmpty_cons_ne _ _ _ _ (by decide),
    docField_stripEmpty_cons_eq]
  rfl

/-!  ## C6 — forecast day selection  -/

set_option maxRecDepth 4000 in
/-- C6: on a 40-entry upstream forecast list the day-selection keeps
exactly 5 entries — the ones at original indices 0, 8, 16, 24 and 32,
in that order.  (Every 40-entry list is of the quantified form.) -/
theorem forecast_selection_on_40 (a0 a1 a2 a3 a4 a5 a6 a7 a8 a9
    a10 a11 a12 a13 a14 a15 a16 a17 a18 a19
    a20 a21 a22 a23 a24 a25 a26 a27 a28 a29
    a30 a31 a32 a33 a34 a35 a36 a37 a38 a39 : ForecastItem) :
    selectDaily [a0, a1, a2, a3, a4, a5, a6, a7, a8, a9,
      a10, a11, a12, a13, a14, a15, a16, a17, a18, a19,
      a20, a21, a22, a23, a24, a25, a26, a27, a28, a29,
      a30, a31, a32, a33, a34, a35, a36, a37, a38, a39] =
        [a0, a8, a16, a24, a32] ∧
    (selectDaily [a0, a1, a2, a3, a4, a5, a6, a7, a8, a9,
      a10, a11, a12, a13, a14, a15, a16, a17, a18, a19,
      a20, a21, a22, a23, a24, a25, a26, a27, a28, a29,
      a30, a31, a32, a33, a34, a35, a36, a37, a38, a39]).length = 5 := by
  constructor <;> simp [selectDaily, List.enum, List.enumFrom, List.filter_cons]

/-!  ## C7 — storage documents contain no empty values  -/

/-- C7: a storage document never binds a key to `''`, `null` or
`undefined`, while the numeric `temperature` and `humidity` keys are
always present with their values — zero included. -/
theorem toDocument_no_empty_values (m : WeatherModel) :
    (∀ kv ∈ m.toDocument, isEmptyVal kv.2 = false) ∧
    docField m.toDocument "temperature" = some (DocValue.vInt m.temperature) ∧
    docField m.toDocument "humidity" = some (DocValue.vInt m.humidity) := by
  refine ⟨?_, docField_temperature_toDocument m, docField_humidity_toDocument m⟩
  intro kv hkv
  have h := List.of_mem_filter hkv
  simpa using h

/-- Witness for C7 at a concrete record with zero temperature and
humidity: the document keeps both zero-valued numeric keys and holds no
empty value. -/
theorem toDocument_no_empty_values_witness :
    isEmptyVal (("temperature", DocValue.vInt 0) : String × DocValue).2 = false ∧
    docField mumbaiModel.toDocument "temperature" = some (DocValue.vInt 0) ∧
    docField mumbaiModel.toDocument "humidity" = some (DocValue.vInt 0) :=
  ⟨(toDocument_no_empty_values mumbaiModel).1 ("temperature", DocValue.vInt 0) (by decide),
   (toDocument_no_empty_values mumbaiModel).2.1,
   (toDocument_no_empty_values mumbaiModel).2.2⟩

/-!  ## C8 — `fromApiResponse` never raises and defaults missing fields  -/

/-- C8: `fromApiResponse` is a total function of the payload (the
embedding of "never raises" for a JSON-object payload), and each missing
optional field falls back to its default: numeric fields to 0,
description and icon to the empty string. -/
theorem fromApiResponse_defaults (p : ApiPayload) (now : Nat) :
    (p.mainTemp = none → (WeatherModel.fromApiResponse p now).temperature = 0) ∧
    (p.mainFeelsLike = none → (WeatherModel.fromApiResponse p now).feelsLike = 0) ∧
    (p.mainHumidity = none → (WeatherModel.fromApiResponse p now).humidity = 0) ∧
    (p.windSpeed = none → (WeatherModel.fromApiResponse p now).windSpeed = 0) ∧
    (p.mainPressure = none → (WeatherModel.fromApiResponse p now).pressure = 0) ∧
    (p.firstDescription = none → (WeatherModel.fromApiResponse p now).description = "") ∧
    (p.firstIcon = none → (WeatherModel.fromApiResponse p now).icon = "") := by
  refine ⟨fun h => ?_, fun h => ?_, fun h => ?_, fun h => ?_, fun h => ?_,
    fun h => ?_, fun h => ?_⟩ <;>
    simp [WeatherModel.fromApiResponse, WeatherModel.ofData, jsOrRat, jsOrInt,
      jsOrStr, jsRound_zero, h]

/-- Witness for C8 at the empty payload `{}`. -/
theorem fromApiResponse_defaults_witness :
    (WeatherModel.fromApiResponse emptyPayload 0).temperature = 0 ∧
    (WeatherModel.fromApiResponse emptyPayload 0).windSpeed = 0 ∧
    (WeatherModel.fromApiResponse emptyPayload 0).description = "" ∧
    (WeatherModel.fromApiResponse emptyPayload 0).icon = "" :=
  ⟨(fromApiResponse_defaults emptyPayload 0).1 rfl,
   (fromApiResponse_defaults emptyPayload 0).2.2.2.1 rfl,
   (fromApiResponse_defaults emptyPayload 0).2.2.2.2.2.1 rfl,
   (fromApiResponse_defaults emptyPayload 0).2.2.2.2.2.2 rfl⟩

/-!  ## C9 — coordinate validation  -/

/-- C9: whenever either coordinate fails to parse as a number
(`parseFloat` yields `NaN`), `getCurrentLocation` answers the 400
client error `'Coords required'`, issues no upstream request, and
leaves the database — in particular the history collection —
unchanged. -/
theorem coords_validation (lat lon units? : Option String) (api : Api)
    (db : DB) (now : Nat) (newId : String)
    (h : jsParseFloat lat = none ∨ jsParseFloat lon = none) :
    getCurrentLocation lat lon units? api db now newId =
      { resp := { status := 400, success := false,
                  error := some "Coords required", message := none },
        db := db, fetches := [] } := by
  unfold getCurrentLocation
  rcases hla : jsParseFloat lat with _ | la <;>
    rcases hlo : jsParseFloat lon with _ | lo
  · rfl
  · rfl
  · rfl
  · rw [hla, hlo] at h
    rcases h with h | h <;> simp at h

/-- Witness for C9: a non-numeric latitude with a numeric longitude is
rejected with 400 and no fetch. -/
theorem coords_validation_witness :
    getCurrentLocation (some "abc") (some "12.5") none emptyApi DB.empty 7 "id1" =
      { resp := { status := 400, success := false,
                  error := some "Coords required", message := none },
        db := DB.empty, fetches := [] } :=
  coords_validation (some "abc") (some "12.5") none emptyApi DB.empty 7 "id1"
    (Or.inl (by decide))

/-!  ## C4 — `removeFavorite` branches  -/

/-- C4: `removeFavorite` rejects a malformed identifier with a 400
validation error and zero storage operations; a well-formed identifier
matching no stored favorite yields 404 and deletes nothing; a matching
identifier deletes exactly that favorite. -/
theorem removeFavorite_branches (id : String) (db : DB) :
    (isValidObjectId id = false →
      removeFavorite id db =
        { resp := { status := 400, success := false,
                    error := some "Invalid favorite ID", message := none },
          db := db, reads := 0, deletes := 0 }) ∧
    (isValidObjectId id = true →
      findOneById db.favorites (objectIdCanon id) = none →
      removeFavorite id db =
        { resp := { status := 404, success := false,
                    error := some "Favorite not found", message := none },
          db := db, reads := 2, deletes := 0 }) ∧
    (∀ d, isValidObjectId id = true →
      findOneById db.favorites (objectIdCanon id) = some d →
      removeFavorite id db =
        { resp := { status := 200, success := true, error := none,
                    message := some "Removed favorite" },
          db := { db with favorites := deleteOneById db.favorites (objectIdCanon id) },
          reads := 1, deletes := 1 }) := by
  refine ⟨fun hv => ?_, fun hv hf => ?_, fun d hv hf => ?_⟩
  · simp [removeFavorite, hv]
  · simp [removeFavorite, hv, hf]
  · simp [removeFavorite, hv, hf]

/-- Witness for C4 on a database holding one favorite: a malformed id
is rejected before storage, an unknown well-formed id yields 404, and
the stored id deletes the favorite. -/
theorem removeFavorite_branches_witness :
    removeFavorite "xyz" dbOneFav =
      { resp := { status := 400, success := false,
                  error := some "Invalid favorite ID", message := none },
        db := dbOneFav, reads := 0, deletes := 0 } ∧
    removeFavorite "bbbbbbbbbbbbbbbbbbbbbbbb" dbOneFav =
      { resp := { status := 404, success := false,
                  error := some "Favorite not found", message := none },
        db := dbOneFav, reads := 2, deletes := 0 } ∧
    removeFavorite "aaaaaaaaaaaaaaaaaaaaaaaa" dbOneFav =
      { resp := { status := 200, success := true, error := none,
                  message := some "Removed favorite" },
        db := { searchHistory := [], favorites := [] }, reads := 1, deletes := 1 } := by
  refine ⟨(removeFavorite_branches "xyz" dbOneFav).1 (by decide),
    (removeFavorite_branches "bbbbbbbbbbbbbbbbbbbbbbbb" dbOneFav).2.1 (by decide) (by decide),
    ?_⟩
  have h := (removeFavorite_branches "aaaaaaaaaaaaaaaaaaaaaaaa" dbOneFav).2.2 favPune
    (by decide) (by decide)
  rw [h]
  decide

/-!  ## C10 — `addFavorite` always fetches with metric units  -/

/-- C10: every upstream request issued by `addFavorite` carries the
hardcoded `units: 'metric'`, and the handler's outcome is entirely
independent of the unit system the client supplied. -/
theorem addFavorite_units_metric (city : String) (u1 u2 : Option String)
    (api : Api) (db : DB) (now : Nat) (newId : String) :
    (∀ r ∈ (addFavorite city u1 api db now newId).fetches, r.units = "metric") ∧
    addFavorite city u1 api db now newId = addFavorite city u2 api db now newId := by
  refine ⟨fun r hr => ?_, rfl⟩
  rcases hfind : findOneByCity db.favorites city with _ | d
  · rcases hapi : api (currentWeatherReq city "metric") with e | payload <;>
      simp [addFavorite, hfind, hapi] at hr <;> subst hr <;> rfl
  · simp [addFavorite, hfind] at hr

/-- Witness for C10: the single request a fresh `addFavorite` issues
(with the client asking for imperial units) uses metric units. -/
theorem addFavorite_units_metric_witness :
    (currentWeatherReq "Pune" "metric").units = "metric" :=
  (addFavorite_units_metric "Pune" (some "imperial") none puneApi DB.empty 1 "idA").1
    (currentWeatherReq "Pune" "metric")
    (by decide)

/-!  ## C1 — invalid records are persisted (validation is never run)  -/

/-- C1 (failing run): the controller inserts the normalized document
without ever consulting `isValid`.  On a city lookup whose upstream 200
payload is the empty JSON object, the record is invalid (empty city,
description and icon), yet its document is inserted into the history
collection and the handler answers success; `addFavorite` likewise
inserts the invalid record into favorites. -/
theorem invalid_record_persisted :
    invalidModel.isValid = false ∧
    (getWeatherByCity "Nowhere" none emptyApi DB.empty 777 "idH").db.searchHistory =
      [{ id := "idH", fields := invalidModel.toDocument }] ∧
    (getWeatherByCity "Nowhere" none emptyApi DB.empty 777 "idH").resp.success = true ∧
    (addFavorite "Nowhere" none emptyApi DB.empty 777 "idF").db.favorites =
      [{ id := "idF", fields := invalidModel.toDocument }] :=
  ⟨rfl, rfl, rfl, rfl⟩

/-!  ## C2 — the error translator, and the forecast handler's exception  -/

/-- C2 (counterexample): when the forecast upstream call fails with an
HTTP 404, the response is 500 `'Forecast failed'` — not the not-found
mapping the claim requires for every handler. -/
theorem getForecast_ignores_upstream_status :
    (getForecast "Xyzzy" none fapiErr404).resp.status = 500 ∧
    (getForecast "Xyzzy" none fapiErr404).resp.status ≠ 404 ∧
    (getForecast "Xyzzy" none fapiErr404).resp.error = some "Forecast failed" :=
  ⟨rfl, by decide, rfl⟩

/-- C2 (amended): `handleError` maps an upstream 401 to
`'Invalid API key'`, 404 to `'Location/Resource not found'`, 429 to
`'Too many requests. Try again later'`, and passes any other upstream
status through with the upstream message (falling back to the error's
message, then `'API Error'`); a failure without an upstream response
becomes a 500 whose message is `'Server Error: '` followed by the
exception's message (`'Unknown error'` if empty).  The lookup handlers
delegate their failures to `handleError` and leave storage unchanged;
`getForecast` alone bypasses it, answering 500 `'Forecast failed'` for
every failure. -/
theorem error_translator_mapping (e : JsError) (r : UpstreamFailure)
    (city : String) (units? : Option String) (api : Api) (fapi : ForecastApi)
    (db : DB) (now : Nat) (newId : String) :
    (e.response = some r → r.status = 401 →
      handleError e = errResponse 401 "Invalid API key") ∧
    (e.response = some r → r.status = 404 →
      handleError e = errResponse 404 "Location/Resource not found") ∧
    (e.response = some r → r.status = 429 →
      handleError e = errResponse 429 "Too many requests. Try again later") ∧
    (e.response = some r → r.status ≠ 401 → r.status ≠ 404 → r.status ≠ 429 →
      handleError e =
        errResponse r.status (jsFallback (jsOrStr r.dataMessage e.message) "API Error")) ∧
    (e.response = none →
      handleError e =
        errResponse 500 ("Server Error: " ++ jsFallback e.message "Unknown error")) ∧
    (api (currentWeatherReq city (units?.getD "metric")) = Except.error e →
      (getWeatherByCity city units? api db now newId).resp = handleError e ∧
      (getWeatherByCity city units? api db now newId).db = db) ∧
    (fapi (currentWeatherReq city (units?.getD "metric")) = Except.error e →
      (getForecast city units? fapi).resp = errResponse 500 "Forecast failed") := by
  refine ⟨fun hr h4 => ?_, fun hr h4 => ?_, fun hr h4 => ?_,
    fun hr h1 h2 h3 => ?_, fun hr => ?_, fun hapi => ?_, fun hapi => ?_⟩
  · simp [handleError, hr, h4]
  · simp [handleError, hr, h4]
  · simp [handleError, hr, h4]
  · simp [handleError, hr, h1, h2, h3]
  · simp [handleError, hr]
  · constructor <;> · simp only [getWeatherByCity]; rw [hapi]
  · simp only [getForecast]; rw [hapi]; rfl

/-- Witness for C2's amended statement at the concrete 404 failure:
the translator answers 404, the city-lookup handler delegates to it,
and the forecast handler still answers 500. -/
theorem error_translator_mapping_witness :
    handleError err404 = errResponse 404 "Location/Resource not found" ∧
    (getWeatherByCity "Xyzzy" none apiErr404 DB.empty 3 "idE").resp = handleError err404 ∧
    (getForecast "Xyzzy" none fapiErr404).resp = errResponse 500 "Forecast failed" :=
  ⟨(error_translator_mapping err404 resp404 "Xyzzy" none apiErr404 fapiErr404
      DB.empty 3 "idE").2.1 rfl rfl,
   ((error_translator_mapping err404 resp404 "Xyzzy" none apiErr404 fapiErr404
      DB.empty 3 "idE").2.2.2.2.2.1 rfl).1,
   (error_translator_mapping err404 resp404 "Xyzzy" none apiErr404 fapiErr404
      DB.empty 3 "idE").2.2.2.2.2.2 rfl⟩

/-!  ## C5 — history capped at 10 and ordered by descending timestamp  -/

/-- Membership in an ordered insert. -/
lemma mem_insertDescBy (d x : StoredDoc) (l : List StoredDoc) :
    x ∈ insertDescBy d l ↔ x = d ∨ x ∈ l := by
  induction l with
  | nil => simp [insertDescBy]
  | cons e es ih =>
    by_cases h : storedTs e ≤ storedTs d <;> simp [insertDescBy, h, ih] <;> tauto

/-- Ordered insert preserves the descending pairwise order. -/
lemma pairwise_insertDescBy (d : StoredDoc) (l : List StoredDoc)
    (h : l.Pairwise (fun a b => storedTs b ≤ storedTs a)) :
    (insertDescBy d l).Pairwise (fun a b => storedTs b ≤ storedTs a) := by
  induction l with
  | nil => simp [insertDescBy]
  | cons e es ih =>
    rcases List.pairwise_cons.mp h with ⟨he, hes⟩
    by_cases hc : storedTs e ≤ storedTs d
    · simp only [insertDescBy, if_pos hc]
      refine List.pairwise_cons.mpr ⟨?_, h⟩
      intro x hx
      rcases List.mem_cons.mp hx with rfl | hx
      · exact hc
      · exact le_trans (he x hx) hc
    · simp only [insertDescBy, if_neg hc]
      refine List.pairwise_cons.mpr ⟨?_, ih hes⟩
      intro x hx
      rcases (mem_insertDescBy d x es).mp hx with rfl | hx
      · omega
      · exact he x hx

/-- The history sort produces a descending sequence of timestamps. -/
lemma pairwise_sortByTsDesc (l : List StoredDoc) :
    (sortByTsDesc l).Pairwise (fun a b => storedTs b ≤ storedTs a) := by
  induction l with
  | nil => simp [sortByTsDesc]
  | cons d ds ih => exact pairwise_insertDescBy d _ ih

/-- C5 (counterexample): with two history entries persisted in the same
millisecond, the returned order cannot be strictly descending — the
claim's strictness fails, though the cap and non-strict order hold
(see the amended theorem). -/
theorem listHistory_ties_break_strictness :
    getSearchHistory tieDB = [tieDocA, tieDocB] ∧
    storedTs tieDocA = storedTs tieDocB ∧
    ¬ (getSearchHistory tieDB).Pairwise (fun a b => storedTs b < storedTs a) := by
  refine ⟨rfl, rfl, fun h => ?_⟩
  rw [show getSearchHistory tieDB = [tieDocA, tieDocB] from rfl] at h
  have h5 := (List.pairwise_cons.mp h).1 tieDocB (List.mem_cons_self _ _)
  exact absurd h5 (by decide)

/-- C5 (amended): for every state of the history collection,
`getSearchHistory` returns at most 10 entries, ordered by descending
timestamp (non-strictly: entries sharing a timestamp may be adjacent). -/
theorem listHistory_capped_and_ordered (db : DB) :
    (getSearchHistory db).length ≤ 10 ∧
    (getSearchHistory db).Pairwise (fun a b => storedTs b ≤ storedTs a) :=
  ⟨List.length_take_le 10 (sortByTsDesc db.searchHistory),
   List.Pairwise.sublist (List.take_sublist 10 (sortByTsDesc db.searchHistory))
     (pairwise_sortByTsDesc db.searchHistory)⟩

/-!  ## C3 — adding the same favorite twice  -/

/-- A document built by `toDocument` matches the query for exactly the
trimmed city name (when that name is non-empty). -/
lemma matchesCity_toDocument (idv : String) (m : WeatherModel) (c : String)
    (h : trimStr m.city = c) (hc : c ≠ "") :
    matchesCity { id := idv, fields := m.toDocument } c = true := by
  unfold matchesCity
  rw [docField_city_toDocument m (by rw [h]; exact hc), h]
  exact beq_self_eq_true _

/-- A `findOne` miss on the first part of a concatenation defers to the
second part. -/
lemma findOneByCity_append_none (l1 l2 : List StoredDoc) (c : String)
    (h : findOneByCity l1 c = none) :
    findOneByCity (l1 ++ l2) c = findOneByCity l2 c := by
  unfold findOneByCity at h ⊢
  rw [List.find?_append, h, Option.none_or]

/-- C3 (counterexample): `addFavorite` compares the requested name
against the city name stored by the upstream snapshot.  Requesting
`"pune"` twice while the upstream payload names the city `"Pune"` makes
the second call miss the duplicate check: it fetches again, inserts
again — two stored favorites, and no "already exists" reply. -/
theorem addFavorite_twice_can_duplicate :
    (addFavorite "pune" none puneApi
      (addFavorite "pune" none puneApi DB.empty 1 "idA").db 2 "idB").db.favorites.length = 2 ∧
    (addFavorite "pune" none puneApi
      (addFavorite "pune" none puneApi DB.empty 1 "idA").db 2 "idB").fetches.length = 1 ∧
    (addFavorite "pune" none puneApi
      (addFavorite "pune" none puneApi DB.empty 1 "idA").db 2 "idB").resp.message ≠
        some "Already in favorites" ∧
    (addFavorite "pune" none puneApi
      (addFavorite "pune" none puneApi DB.empty 1 "idA").db 2 "idB").resp.success = true :=
  ⟨rfl, rfl, by decide, rfl⟩

/-- C3 (amended): provided the upstream snapshot's stored city name
(the payload's trimmed, non-empty `name`) equals the requested name and
no favorite for it exists yet, two sequential `addFavorite` calls with
that exact name leave exactly one matching favorite: the first call
inserts it, and the second finds it by exact case-sensitive city
equality, answers HTTP 200 with `success: false` and message
`'Already in favorites'`, issues no upstream fetch and performs no
insert. -/
theorem addFavorite_second_call_reports_exists
    (c : String) (u1 u2 : Option String) (api : Api) (db : DB)
    (t1 t2 : Nat) (idA idB : String) (p : ApiPayload)
    (hapi : api (currentWeatherReq c "metric") = Except.ok p)
    (hname : trimStr (jsOrStr p.name "") = c)
    (hc : c ≠ "")
    (hnone : findOneByCity db.favorites c = none) :
    (addFavorite c u1 api db t1 idA).db.favorites =
      db.favorites ++
        [{ id := idA, fields := (WeatherModel.fromApiResponse p t1).toDocument }] ∧
    countCity (addFavorite c u2 api (addFavorite c u1 api db t1 idA).db t2 idB).db.favorites c = 1 ∧
    (addFavorite c u2 api (addFavorite c u1 api db t1 idA).db t2 idB).db =
      (addFavorite c u1 api db t1 idA).db ∧
    (addFavorite c u2 api (addFavorite c u1 api db t1 idA).db t2 idB).resp =
      { status := 200, success := false, error := none,
        message := some "Already in favorites" } ∧
    (addFavorite c u2 api (addFavorite c u1 api db t1 idA).db t2 idB).fetches = [] := by
  have hm : matchesCity
      { id := idA, fields := (WeatherModel.fromApiResponse p t1).toDocument } c = true :=
    matchesCity_toDocument idA (WeatherModel.fromApiResponse p t1) c hname hc
  have s1eq : addFavorite c u1 api db t1 idA =
      { resp := okResponse (some "Added to favorites"),
        db := { searchHistory := db.searchHistory,
                favorites := db.favorites ++
                  [{ id := idA, fields := (WeatherModel.fromApiResponse p t1).toDocument }] },
        fetches := [currentWeatherReq c "metric"] } := by
    simp only [addFavorite]
    rw [hnone, hapi]
  have hfind1 : findOneByCity (db.favorites ++
      [{ id := idA, fields := (WeatherModel.fromApiResponse p t1).toDocument }]) c =
      some { id := idA, fields := (WeatherModel.fromApiResponse p t1).toDocument } := by
    rw [findOneByCity_append_none _ _ _ hnone]
    unfold findOneByCity
    simp [hm]
  have s2eq : addFavorite c u2 api (addFavorite c u1 api db t1 idA).db t2 idB =
      { resp := { status := 200, success := false, error := none,
                  message := some "Already in favorites" },
        db := (addFavorite c u1 api db t1 idA).db, fetches := [] } := by
    conv in addFavorite c u2 api _ t2 idB => rw [s1eq]
    simp only [addFavorite]
    rw [hfind1, hnone, hapi]
  have hfil : db.favorites.filter (fun d => matchesCity d c) = [] := by
    refine List.filter_eq_nil_iff.mpr ?_
    intro a ha
    have hn := List.find?_eq_none.mp hnone a ha
    simpa using hn
  refine ⟨by rw [s1eq], ?_, by rw [s2eq], by rw [s2eq], by rw [s2eq]⟩
  rw [s2eq]
  show countCity (addFavorite c u1 api db t1 idA).db.favorites c = 1
  rw [s1eq]
  show countCity (db.favorites ++
    [{ id := idA, fields := (WeatherModel.fromApiResponse p t1).toDocument }]) c = 1
  unfold countCity
  rw [List.filter_append, hfil]
  simp [hm]

/-- Witness for C3's amended statement: two `addFavorite "Pune"` calls
against the canonical `"Pune"` payload leave one matching favorite and
the second call answers "already in favorites" without fetching. -/
theorem addFavorite_second_call_reports_exists_witness :
    countCity (addFavorite "Pune" none puneApi
      (addFavorite "Pune" (some "imperial") puneApi DB.empty 11 "idA").db 12 "idB").db.favorites
      "Pune" = 1 ∧
    (addFavorite "Pune" none puneApi
      (addFavorite "Pune" (some "imperial") puneApi DB.empty 11 "idA").db 12 "idB").resp =
      { status := 200, success := false, error := none,
        message := some "Already in favorites" } ∧
    (addFavorite "Pune" none puneApi
      (addFavorite "Pune" (some "imperial") puneApi DB.empty 11 "idA").db 12 "idB").fetches = [] :=
  ⟨(addFavorite_second_call_reports_exists "Pune" (some "imperial") none puneApi DB.empty
      11 12 "idA" "idB" punePayload rfl (by decide) (by decide) rfl).2.1,
   (addFavorite_second_call_reports_exists "Pune" (some "imperial") none puneApi DB.empty
      11 12 "idA" "idB" punePayload rfl (by decide) (by decide) rfl).2.2.2.1,
   (addFavorite_second_call_reports_exists "Pune" (some "imperial") none puneApi DB.empty
      11 12 "idA" "idB" punePayload rfl (by decide) (by decide) rfl).2.2.2.2⟩

end WeatherApp
